import Mathlib

/-
  Verification development for the "New Reality" habit/goal-tracking app.

  The definitions below are a shallow embedding of the request governor and
  generation/persistence services:
    * src/services/geminiService.ts  (queue, rate limiter, retryWithBackoff,
      handleAPIError, getDailyPlan, getReflectionResponse)
    * src/services/firestoreService.ts (getUserData)

  JavaScript specifics are modelled explicitly:
    * error values are `JSError` records carrying a `message` string, and
      `String.prototype.includes` is the executable `strIncludes` below;
    * a thrown `undefined` (the `throw lastError` line reachable only with
      `maxRetries = 0`) is modelled as the `none` case of `Option JSError`;
    * timers (`setTimeout`/`delay`) are idealized as exact: a wait of `d`
      milliseconds resumes exactly `d` later;
    * `Date.now()` reads are parameters of the simulation state;
    * `Math.random()`-based selection is an injected index (`Fin _`);
    * `JSON.parse` (a runtime builtin, external to the repository) is an
      oracle parameter `parse : String -> Option GPlan`: `none` models a
      parse exception or a value not of the expected shape.
-/

namespace NR

/- ===== JS string and error primitives ===== -/

/-- Character-list prefix test (executable helper for `strIncludes`). -/
def isPrefixOfChars : List Char → List Char → Bool
  | [], _ => true
  | _ :: _, [] => false
  | a :: as, b :: bs => a == b && isPrefixOfChars as bs

/-- Does `needle` occur as a contiguous run inside `hay`? -/
def containsSub (hay needle : List Char) : Bool :=
  match hay with
  | [] => isPrefixOfChars needle []
  | _ :: t => isPrefixOfChars needle hay || containsSub t needle

/-- JavaScript `msg.includes(sub)`. -/
def strIncludes (msg sub : String) : Bool :=
  containsSub msg.data sub.data

/-- Does string `s` end with `tail`? (used to state the quote-id convention). -/
def strEndsWith (s tail : String) : Bool :=
  isPrefixOfChars tail.data.reverse s.data.reverse

/-- A JavaScript `Error`: all the code ever inspects is its `message`. -/
structure JSError where
  message : String
deriving DecidableEq

/- ===== Error classification (geminiService.ts lines 93-116, 132-143) ===== -/

/-- Outer quota guard of `retryWithBackoff` (line 94):
    `error.message?.includes('429') || error.message?.includes('quota')`. -/
def quotaOuter (e : JSError) : Bool :=
  strIncludes e.message "429" || strIncludes e.message "quota"

/-- Inner `isQuotaError` test of `retryWithBackoff` (lines 95-97). -/
def quotaInner (e : JSError) : Bool :=
  strIncludes e.message "RESOURCE_EXHAUSTED" || strIncludes e.message "quota" ||
    strIncludes e.message "free_tier_requests"

/-- The `isRetryable` test of `retryWithBackoff` (lines 114-116). -/
def retryable (e : JSError) : Bool :=
  strIncludes e.message "503" || strIncludes e.message "overloaded" ||
    strIncludes e.message "UNAVAILABLE"

/-- The distinct error thrown once quota retries are exhausted (line 105). -/
def quotaExhaustedError : JSError :=
  ⟨"Free tier quota exhausted. Please upgrade to paid tier or wait for quota reset."⟩

/-- User-facing message for quota failures (handleAPIError, line 134). -/
def quotaMsg : String :=
  "🚫 Free tier quota exceeded! You can only make 15 requests per minute. Please wait or upgrade to paid tier."

/-- User-facing message for overloaded-service failures (line 137). -/
def busyMsg : String :=
  "⏳ AI service is currently busy. Please try again in a few moments."

/-- User-facing message for auth failures (line 140). -/
def authMsg : String :=
  "🔑 Invalid API key. Please check your configuration."

/-- Generic user-facing failure message (line 142). -/
def genericMsg : String :=
  "❌ AI service temporarily unavailable. Please try again later."

/-- `handleAPIError` (geminiService.ts lines 132-143). -/
def handleAPIError (e : JSError) : String :=
  if strIncludes e.message "429" || strIncludes e.message "quota" ||
      strIncludes e.message "RESOURCE_EXHAUSTED" then quotaMsg
  else if strIncludes e.message "503" || strIncludes e.message "overloaded" then busyMsg
  else if strIncludes e.message "API key" || strIncludes e.message "401" then authMsg
  else genericMsg

/- ===== retryWithBackoff (geminiService.ts lines 80-129) ===== -/

/-- Instrumented outcome of one `retryWithBackoff` run: the value returned or
    thrown (`.error none` models JS throwing `undefined` via the trailing
    `throw lastError` when the loop body never ran), the backoff waits
    performed between attempts (milliseconds, rational because of the
    `1.5^(attempt-1)` schedule), and the attempt numbers at which the governed
    operation `rateLimitedRequest(fn)` was actually invoked. -/
structure RetryTrace (α : Type) where
  result : Except (Option JSError) α
  delays : List ℚ
  attempts : List Nat

/-- Body of the `for (let attempt = 1; attempt <= maxRetries; attempt++)` loop
    of `retryWithBackoff`, with `fuel = maxRetries + 1 - attempt` making the
    loop bound structural.  `behavior a` is the outcome of the governed
    execution `await rateLimitedRequest(fn)` at attempt `a`.  The source's
    nested quota test (outer `'429' || 'quota'`, inner `isQuotaError`, with
    fall-through to the retryable test when the inner test fails) is the
    single condition `quotaOuter e && quotaInner e` here, which has the same
    fall-through semantics. -/
def retryGo {α : Type} (behavior : Nat → Except JSError α) (maxRetries : Nat)
    (baseDelay : ℚ) : Nat → Nat → Option JSError → RetryTrace α
  | 0, _, lastError => ⟨.error lastError, [], []⟩
  | fuel + 1, attempt, _ =>
    match behavior attempt with
    | .ok v => ⟨.ok v, [], [attempt]⟩
    | .error e =>
      if quotaOuter e && quotaInner e then
        if attempt == maxRetries then
          ⟨.error (some quotaExhaustedError), [], [attempt]⟩
        else
          let quotaDelay := baseDelay * 2 ^ attempt
          let t := retryGo behavior maxRetries baseDelay fuel (attempt + 1) (some e)
          ⟨t.result, quotaDelay :: t.delays, attempt :: t.attempts⟩
      else if !retryable e || attempt == maxRetries then
        ⟨.error (some e), [], [attempt]⟩
      else
        let delayMs := baseDelay * (3 / 2 : ℚ) ^ (attempt - 1)
        let t := retryGo behavior maxRetries baseDelay fuel (attempt + 1) (some e)
        ⟨t.result, delayMs :: t.delays, attempt :: t.attempts⟩

/-- `retryWithBackoff` (lines 80-129); the source's defaults are
    `maxRetries = 3`, `baseDelay = 6000`. -/
def retryWithBackoff {α : Type} (behavior : Nat → Except JSError α)
    (maxRetries : Nat) (baseDelay : ℚ) : RetryTrace α :=
  retryGo behavior maxRetries baseDelay maxRetries 1 none

/- ===== Request queue and rate limiter (geminiService.ts lines 12-77) ===== -/

/-- `MIN_REQUEST_INTERVAL` (line 14): 5 seconds between requests. -/
def MIN_REQUEST_INTERVAL : Nat := 5000

/-- The module-level timing state read and written by the closure that
    `rateLimitedRequest` pushes onto the queue: the current wall clock (the
    value `Date.now()` would return) and `lastRequestTime` (line 13,
    initialized to 0).  The rolling `requestCount` is incremented and
    decremented by the source but never read to gate dispatch, so it does not
    influence any observable modelled here. -/
structure GovState where
  now : Nat
  lastRequestTime : Nat
deriving DecidableEq

/-- One queued request, as the drain loop sees it: an identity, the time the
    wrapped operation takes to settle, and whether it resolves or rejects. -/
structure Req where
  id : Nat
  dur : Nat
  ok : Bool
deriving DecidableEq

/-- Observable events of a queue run: the wrapped operation `requestFn` is
    started (dispatched) or settles, at the given wall-clock time. -/
inductive Event where
  | start (id : Nat) (time : Nat)
  | settle (id : Nat) (time : Nat) (ok : Bool)
deriving DecidableEq

/-- The closure built by `rateLimitedRequest` (lines 29-53), run at state
    `st`: read `Date.now()`; if less than `MIN_REQUEST_INTERVAL` elapsed since
    `lastRequestTime`, `await delay(waitTime)`; then set `lastRequestTime` to
    the post-wait `Date.now()` and invoke the wrapped operation, which settles
    after `r.dur` (resolving or rejecting the caller's promise per `r.ok`). -/
def runGoverned (st : GovState) (r : Req) : GovState × List Event :=
  let timeSinceLastRequest := st.now - st.lastRequestTime
  let waitTime :=
    if timeSinceLastRequest < MIN_REQUEST_INTERVAL then
      MIN_REQUEST_INTERVAL - timeSinceLastRequest
    else 0
  let dispatchTime := st.now + waitTime
  let settleTime := dispatchTime + r.dur
  (⟨settleTime, dispatchTime⟩,
   [Event.start r.id dispatchTime, Event.settle r.id settleTime r.ok])

/-- The drain loop `processQueue` (lines 60-77) over the queue contents in
    submission order (`requestQueue.push` appends, `shift` pops the head):
    run the head closure to completion — a rejection is caught by the loop's
    `try`/`catch` and recorded in the settle event — then continue with the
    rest.  The `isProcessingQueue` flag makes re-entrant invocations return at
    once, so a single sequential pass is the whole behavior. -/
def processQueue (st : GovState) : List Req → List Event
  | [] => []
  | r :: rest =>
    let p := runGoverned st r
    p.2 ++ processQueue p.1 rest

/-- Identities of dispatched operations, in dispatch order. -/
def startIds (evs : List Event) : List Nat :=
  evs.filterMap fun e =>
    match e with
    | .start i _ => some i
    | .settle _ _ _ => none

/-- Wall-clock times at which operations were dispatched, in dispatch order. -/
def dispatchTimes (evs : List Event) : List Nat :=
  evs.filterMap fun e =>
    match e with
    | .start _ t => some t
    | .settle _ _ _ => none

/-- A trace is sequential: it is a chain of adjacent start/settle pairs for
    one id at a time — no operation starts before the previous one settled. -/
inductive SeqTrace : List Event → Prop where
  | nil : SeqTrace []
  | pair (i t t' ok : _) {rest : List Event} :
      SeqTrace rest → SeqTrace (.start i t :: .settle i t' ok :: rest)

/- ===== Domain model (src/types.ts) ===== -/

/-- `UserProfile` (types.ts). -/
structure UserProfile where
  identity : String
  context : String
deriving DecidableEq

/-- `Goal` (types.ts). -/
structure Goal where
  id : String
  title : String
deriving DecidableEq

/-- `Task` (types.ts). -/
structure Task where
  id : String
  text : String
  isCompleted : Bool
  isGIA : Bool
deriving DecidableEq

/- ===== Parsed daily-plan payload ===== -/

/-- The `gia` member of a parsed daily-plan response.  Fields are `Option`
    because `JSON.parse` output is dynamic: `none` models an absent member
    (the code guards every access with optional chaining and truthiness). -/
structure GGia where
  task : Option String
  reason : Option String
deriving DecidableEq

/-- One entry of the `otherTasks` array of a parsed daily-plan response. -/
structure GOther where
  task : Option String
deriving DecidableEq

/-- A parsed daily-plan response (`GeminiDailyPlanResponse` in types.ts) as
    the dynamic value the mapping code actually inspects.  `otherTasks = none`
    models a missing member or one failing `Array.isArray`. -/
structure GPlan where
  gia : Option GGia
  otherTasks : Option (List GOther)
  motivationalQuote : Option String
deriving DecidableEq

/-- The `planData.otherTasks.forEach((t, index) => ...)` loop of `getDailyPlan`
    (lines 250-261): walk the array with its index, pushing a non-GIA task for
    each entry whose `task` member is truthy (present and non-empty). -/
def otherLoop (nowMs : Nat) : Nat → List GOther → List Task
  | _, [] => []
  | index, ot :: rest =>
    match ot.task with
    | some s =>
      if s = "" then otherLoop nowMs (index + 1) rest
      else ⟨"task_" ++ toString nowMs ++ "_" ++ toString index, s, false, false⟩ ::
        otherLoop nowMs (index + 1) rest
    | none => otherLoop nowMs (index + 1) rest

/-- The GIA push of `getDailyPlan` (lines 241-248): one GIA-flagged task when
    `planData.gia?.task` is truthy, nothing otherwise. -/
def giaPart (nowMs : Nat) (gia : Option GGia) : List Task :=
  match gia with
  | some g =>
    match g.task with
    | some s =>
      if s = "" then []
      else [⟨"task_" ++ toString nowMs ++ "_gia", s, false, true⟩]
    | none => []
  | none => []

/-- The `otherTasks` push of `getDailyPlan` (lines 250-261): the `forEach`
    loop when `Array.isArray(planData.otherTasks)` holds, nothing otherwise. -/
def otherPart (nowMs : Nat) (otherTasks : Option (List GOther)) : List Task :=
  match otherTasks with
  | some ots => otherLoop nowMs 0 ots
  | none => []

/-- The quote push of `getDailyPlan` (lines 263-270): one trailing non-GIA
    task holding the motivational quote when it is truthy. -/
def quotePart (nowMs : Nat) (quote : Option String) : List Task :=
  match quote with
  | some q =>
    if q = "" then []
    else [⟨"task_" ++ toString nowMs ++ "_quote", q, false, false⟩]
  | none => []

/-- The task-list construction of `getDailyPlan` (lines 239-270): GIA task if
    `planData.gia?.task` is truthy, then the supporting tasks, then the
    motivational quote as a trailing task whose id carries the `_quote`
    suffix.  `nowMs` is the `Date.now()` reading during the build. -/
def buildTasks (nowMs : Nat) (planData : GPlan) : List Task :=
  giaPart nowMs planData.gia ++ otherPart nowMs planData.otherTasks ++
    quotePart nowMs planData.motivationalQuote

/-- Error thrown on an absent or falsy `response.text` (lines 225-227). -/
def emptyResponseError : JSError := ⟨"Empty response from Gemini API"⟩

/-- Error thrown when `JSON.parse` fails (line 236). -/
def invalidFormatError : JSError := ⟨"Invalid response format from AI"⟩

/-- Error thrown when the mapping produced zero tasks (line 273). -/
def noTasksError : JSError := ⟨"No valid tasks generated"⟩

/-- Validation error for a missing/falsy goal title (line 179). -/
def goalRequiredError : JSError := ⟨"Goal is required to generate daily plan"⟩

/-- Validation error for a missing/falsy profile identity (line 183). -/
def profileRequiredError : JSError := ⟨"User profile with identity is required"⟩

/-- The JS `TypeError` raised were `.message` read off a thrown `undefined`;
    reachable only through `retryWithBackoff` with `maxRetries = 0`, which no
    caller does (see `retryGo_result_ne_error_none`). -/
def undefinedThrown : JSError := ⟨"TypeError: Cannot read properties of undefined"⟩

/-- The closure `getDailyPlan` hands to `retryWithBackoff` (lines 211-278),
    at attempt `attempt`.  `upstream attempt` is the outcome of the
    `ai.models.generateContent` call: an exception, or a response whose
    `text` member is absent (`none`) or a string; `!response || !response.text`
    also rejects the empty string.  `parse` is the `JSON.parse` oracle. -/
def planFn (parse : String → Option GPlan) (upstream : Nat → Except JSError (Option String))
    (nowMs : Nat) (attempt : Nat) : Except JSError (List Task) :=
  match upstream attempt with
  | .error e => .error e
  | .ok none => .error emptyResponseError
  | .ok (some txt) =>
    if txt = "" then .error emptyResponseError
    else
      match parse txt.trim with
      | none => .error invalidFormatError
      | some planData =>
        let tasks := buildTasks nowMs planData
        if tasks.length = 0 then .error noTasksError
        else .ok tasks

/-- Truthiness of `!goal || !goal.title` (lines 178-180). -/
def goalFalsy : Option Goal → Bool
  | none => true
  | some g => g.title == ""

/-- Truthiness of `!profile || !profile.identity` (lines 182-184). -/
def profileFalsy : Option UserProfile → Bool
  | none => true
  | some p => p.identity == ""

/-- What a run of the exported `getDailyPlan` yields: the settled value of
    its promise, plus the attempt numbers at which a closure was handed to
    the governor (`rateLimitedRequest` enqueues exactly once per attempt, so
    `attempts = []` means nothing was ever enqueued and the upstream API was
    never called). -/
structure PlanOutcome where
  result : Except JSError (List Task)
  attempts : List Nat

/-- The exported `getDailyPlan` (geminiService.ts lines 176-285): validate
    the goal and profile before anything touches the governor; then run the
    generation closure under `retryWithBackoff` with the default policy
    (`maxRetries = 3`, `baseDelay = 6000`); any failure escaping the retry
    wrapper is replaced by `new Error(handleAPIError(error))` (lines 280-284).
    Prompt and schema construction (lines 186-208) only build strings passed
    to the upstream oracle and are not observable here. -/
def getDailyPlan (profile : Option UserProfile) (goal : Option Goal)
    (parse : String → Option GPlan) (upstream : Nat → Except JSError (Option String))
    (nowMs : Nat) : PlanOutcome :=
  if goalFalsy goal then ⟨.error goalRequiredError, []⟩
  else if profileFalsy profile then ⟨.error profileRequiredError, []⟩
  else
    let tr := retryWithBackoff (planFn parse upstream nowMs) 3 6000
    match tr.result with
    | .ok tasks => ⟨.ok tasks, tr.attempts⟩
    | .error (some e) => ⟨.error ⟨handleAPIError e⟩, tr.attempts⟩
    | .error none => ⟨.error undefinedThrown, tr.attempts⟩

/- ===== getReflectionResponse (geminiService.ts lines 287-353) ===== -/

/-- The closure `getReflectionResponse` hands to `retryWithBackoff`
    (lines 312-330): reject on an absent or falsy `response.text`, otherwise
    resolve with the trimmed text. -/
def reflectionFn (upstream : Nat → Except JSError (Option String)) (attempt : Nat) :
    Except JSError String :=
  match upstream attempt with
  | .error e => .error e
  | .ok none => .error emptyResponseError
  | .ok (some txt) =>
    if txt = "" then .error emptyResponseError
    else .ok txt.trim

/-- The five canned fallback responses (lines 336-342). -/
def fallbackResponses : List String :=
  ["Thank you for sharing your thoughts! Your commitment to growth is inspiring. Keep pushing forward – every small step counts! 🌟",
   "I appreciate you taking time to reflect. Your self-awareness shows real dedication to your goals. You're doing amazing work! 💪",
   "Your reflection shows genuine progress. Remember, consistency beats perfection every time. Keep up the excellent work! ✨",
   "Thanks for being so thoughtful about your journey. Your dedication to improvement is what will make the difference. Stay strong! 🚀",
   "Your honesty in reflection is powerful. Every day you're becoming more aligned with your goals. That's real progress! 🎯"]

/-- The quota warning appended to a fallback response (line 348): the
    template-literal text after `${randomResponse}`. -/
def quotaNoteSuffix : String :=
  " \n\n⚠️ Note: Free tier quota limit reached. Consider upgrading for unlimited responses."

/-- The exported `getReflectionResponse` (lines 287-353): run the generation
    closure under the default retry policy; on success resolve with its text;
    on failure resolve with a pseudo-randomly picked canned response
    (`pick` injects the `Math.floor(Math.random() * length)` index), with the
    quota note appended when the caught error's message contains `'quota'` or
    `'429'` (line 347). -/
def getReflectionResponse (upstream : Nat → Except JSError (Option String))
    (pick : Fin fallbackResponses.length) : Except JSError String :=
  let tr := retryWithBackoff (reflectionFn upstream) 3 6000
  match tr.result with
  | .ok s => .ok s
  | .error none => .error undefinedThrown
  | .error (some e) =>
    let randomResponse := fallbackResponses.get pick
    if strIncludes e.message "quota" || strIncludes e.message "429" then
      .ok (randomResponse ++ quotaNoteSuffix)
    else .ok randomResponse

/-- The claim's notion of a quota-classified failure, by its own markers:
    rate-limit status code 429, "quota", "RESOURCE_EXHAUSTED",
    "free_tier_requests" (spec section 4.2). -/
def specQuotaClassified (e : JSError) : Bool :=
  strIncludes e.message "429" || strIncludes e.message "quota" ||
    strIncludes e.message "RESOURCE_EXHAUSTED" || strIncludes e.message "free_tier_requests"

/- ===== getUserData (firestoreService.ts lines 6-22) ===== -/

/-- The default profile object returned for a missing stored profile. -/
def defaultProfileData : UserProfile :=
  { identity := "Default identity", context := "Default context" }

/-- The shape of the default goal object `{ title: "Default goal", tasks: [] }`
    (note: the stored-goal default carries a `tasks` array, not the `Goal`
    interface's `id`). -/
structure StoredGoal where
  title : String
  tasks : List Task
deriving DecidableEq

/-- The default goal object returned for a missing stored goal. -/
def defaultGoalData : StoredGoal :=
  { title := "Default goal", tasks := [] }

/-- The snapshot value at `users/{userId}`: `none` when nothing is stored
    (`snapshot.val()` returns `null`), otherwise a record whose `profile` and
    `goal` children may each be absent.  A present child is a (truthy) object. -/
structure StoredData where
  profile : Option UserProfile
  goal : Option StoredGoal
deriving DecidableEq

/-- What `getUserData` resolves to: always both a profile and a goal. -/
structure FetchResult where
  profile : UserProfile
  goal : StoredGoal
deriving DecidableEq

/-- `getUserData` (firestoreService.ts lines 6-22): if the snapshot is truthy
    and has a truthy `profile` or `goal`, return each child or its default
    (`data.profile || {...}`, `data.goal || {...}`); otherwise return both
    defaults. -/
def getUserData (data : Option StoredData) : FetchResult :=
  match data with
  | some d =>
    if d.profile.isSome || d.goal.isSome then
      ⟨d.profile.getD defaultProfileData, d.goal.getD defaultGoalData⟩
    else ⟨defaultProfileData, defaultGoalData⟩
  | none => ⟨defaultProfileData, defaultGoalData⟩

/- ===== Helper lemmas ===== -/

/-- The retry loop only throws `undefined` (`.error none`) when its body never
    ran: every recursive step records the caught error as `lastError`. -/
theorem retryGo_result_ne_error_none {α : Type} (behavior : Nat → Except JSError α)
    (maxRetries : Nat) (baseDelay : ℚ) :
    ∀ fuel attempt lastError,
      (retryGo behavior maxRetries baseDelay fuel attempt lastError).result = .error none →
      fuel = 0 ∧ lastError = none := by
  intro fuel
  induction fuel with
  | zero => intro attempt lastError h; exact ⟨rfl, by simpa [retryGo] using h⟩
  | succ n ih =>
    intro attempt lastError h
    exfalso
    simp only [retryGo] at h
    split at h
    · simp at h
    · split at h
      · split at h
        · simp at h
        · simp only at h
          exact absurd (ih (attempt + 1) (some _) h).2 (by simp)
      · split at h
        · simp at h
        · simp only at h
          exact absurd (ih (attempt + 1) (some _) h).2 (by simp)

/-- A successful retry-loop result is the value of some attempt. -/
theorem retryGo_ok_origin {α : Type} (behavior : Nat → Except JSError α)
    (maxRetries : Nat) (baseDelay : ℚ) :
    ∀ fuel attempt lastError v,
      (retryGo behavior maxRetries baseDelay fuel attempt lastError).result = .ok v →
      ∃ a, behavior a = .ok v := by
  intro fuel
  induction fuel with
  | zero => intro attempt lastError v h; simp [retryGo] at h
  | succ n ih =>
    intro attempt lastError v h
    simp only [retryGo] at h
    split at h
    · next w heq =>
        simp only at h
        exact ⟨attempt, by rw [heq]; exact congrArg Except.ok (by simpa using h)⟩
    · next e heq =>
        split at h
        · split at h
          · simp at h
          · simp only at h
            exact ih (attempt + 1) (some e) v h
        · split at h
          · simp at h
          · simp only at h
            exact ih (attempt + 1) (some e) v h

/-- Dispatch-time bookkeeping: every emitted dispatch time respects the
    minimum spacing from the state it was computed in, and the simulation
    keeps `lastRequestTime ≤ now`. -/
theorem processQueue_spacing (reqs : List Req) :
    ∀ st : GovState, st.lastRequestTime ≤ st.now →
      List.Chain' (fun a b => a + MIN_REQUEST_INTERVAL ≤ b)
          (dispatchTimes (processQueue st reqs)) ∧
      (∀ d ∈ (dispatchTimes (processQueue st reqs)).head?,
        st.lastRequestTime + MIN_REQUEST_INTERVAL ≤ d) := by
  induction reqs with
  | nil => intro st _; simp [processQueue, dispatchTimes]
  | cons r rest ih =>
    intro st h
    have hd : ∀ w, st.lastRequestTime + MIN_REQUEST_INTERVAL ≤ st.now +
        (if st.now - st.lastRequestTime < MIN_REQUEST_INTERVAL then
          MIN_REQUEST_INTERVAL - (st.now - st.lastRequestTime) else 0) + w := by
      intro w
      simp only [MIN_REQUEST_INTERVAL] at h ⊢
      split <;> omega
    have hrec := ih ⟨st.now +
        (if st.now - st.lastRequestTime < MIN_REQUEST_INTERVAL then
          MIN_REQUEST_INTERVAL - (st.now - st.lastRequestTime) else 0) + r.dur,
      st.now +
        (if st.now - st.lastRequestTime < MIN_REQUEST_INTERVAL then
          MIN_REQUEST_INTERVAL - (st.now - st.lastRequestTime) else 0)⟩
      (Nat.le_add_right _ _)
    simp only [processQueue, runGoverned, dispatchTimes, List.filterMap_append,
      List.filterMap_cons, List.filterMap_nil] at hrec ⊢
    refine ⟨List.chain'_cons'.2 ⟨fun y hy => ?_, hrec.1⟩, fun d hd' => ?_⟩
    · exact hrec.2 y hy
    · simp only [List.singleton_append, List.head?_cons, Option.mem_def,
        Option.some.injEq] at hd'
      rw [← hd']
      simpa using hd 0

/-- Other-task entries produced by the `forEach` loop are never GIA-flagged. -/
theorem otherLoop_not_gia (nowMs : Nat) :
    ∀ index ots t, t ∈ otherLoop nowMs index ots → t.isGIA = false := by
  intro index ots
  induction ots generalizing index with
  | nil => intro t ht; simp [otherLoop] at ht
  | cons ot rest ih =>
    intro t ht
    obtain ⟨otask⟩ := ot
    rcases otask with _ | s
    · simp only [otherLoop] at ht
      exact ih (index + 1) t ht
    · simp only [otherLoop] at ht
      by_cases hs : s = ""
      · rw [if_pos hs] at ht; exact ih (index + 1) t ht
      · rw [if_neg hs] at ht
        rcases List.mem_cons.1 ht with h | h
        · rw [h]
        · exact ih (index + 1) t h

/-- With every entry present and non-empty, the `forEach` loop is an indexed
    map over the raw strings. -/
theorem otherLoop_map (nowMs : Nat) (others : List String) (h : ∀ s ∈ others, s ≠ "") :
    ∀ index, otherLoop nowMs index (others.map (fun s => ⟨some s⟩)) =
      (others.enumFrom index).map
        (fun p => ⟨"task_" ++ toString nowMs ++ "_" ++ toString p.1, p.2, false, false⟩) := by
  induction others with
  | nil => intro index; simp [otherLoop, List.enumFrom]
  | cons s rest ih =>
    intro index
    have hs : s ≠ "" := h s (List.mem_cons_self s rest)
    simp only [List.map_cons, otherLoop, if_neg hs, List.enumFrom]
    exact congrArg _ (ih (fun x hx => h x (List.mem_cons_of_mem s hx)) (index + 1))

/-- Shape lemma: a head segment that is empty or a single GIA task, followed
    by a tail of non-GIA tasks, yields at most one GIA task, at the head. -/
theorem gia_head_shape (l1 l2 : List Task)
    (h1 : l1 = [] ∨ ∃ g, l1 = [g] ∧ g.isGIA = true)
    (h2 : ∀ t ∈ l2, t.isGIA = false) :
    ((l1 ++ l2).filter (fun t => t.isGIA)).length ≤ 1 ∧
    (∀ t ∈ l1 ++ l2, t.isGIA = true → (l1 ++ l2).head? = some t) := by
  have hfil : l2.filter (fun t => t.isGIA) = [] := by
    rw [List.filter_eq_nil_iff]
    intro t ht
    simp [h2 t ht]
  rcases h1 with h1 | ⟨g, hg, hgia⟩
  · subst h1
    refine ⟨by simp [hfil], fun t ht hgia => ?_⟩
    rw [List.nil_append] at ht
    exact absurd hgia (by simp [h2 t ht])
  · subst hg
    refine ⟨by simp [hfil, hgia], fun t ht htgia => ?_⟩
    rcases List.mem_cons.1 ht with h | h
    · rw [h]; rfl
    · exact absurd htgia (by simp [h2 t h])

/-- The GIA push yields nothing or a single GIA-flagged task. -/
theorem giaPart_shape (nowMs : Nat) (gia : Option GGia) :
    giaPart nowMs gia = [] ∨ ∃ g, giaPart nowMs gia = [g] ∧ g.isGIA = true := by
  rcases gia with _ | g
  · exact Or.inl rfl
  · obtain ⟨gtask, greason⟩ := g
    rcases gtask with _ | s
    · exact Or.inl rfl
    · by_cases hs : s = ""
      · exact Or.inl (by simp [giaPart, hs])
      · exact Or.inr ⟨⟨"task_" ++ toString nowMs ++ "_gia", s, false, true⟩,
          by simp [giaPart, hs], rfl⟩

/-- Supporting tasks are never GIA-flagged. -/
theorem otherPart_not_gia (nowMs : Nat) (otherTasks : Option (List GOther)) :
    ∀ t ∈ otherPart nowMs otherTasks, t.isGIA = false := by
  intro t ht
  rcases otherTasks with _ | ots
  · simp [otherPart] at ht
  · exact otherLoop_not_gia nowMs 0 ots t (by simpa [otherPart] using ht)

/-- The quote task is never GIA-flagged. -/
theorem quotePart_not_gia (nowMs : Nat) (quote : Option String) :
    ∀ t ∈ quotePart nowMs quote, t.isGIA = false := by
  intro t ht
  rcases quote with _ | q
  · simp [quotePart] at ht
  · by_cases hq : q = ""
    · simp [quotePart, hq] at ht
    · simp only [quotePart, if_neg hq, List.mem_singleton] at ht
      rw [ht]

/-- The task list built from any parsed plan carries at most one GIA task and
    only at the head. -/
theorem buildTasks_gia (nowMs : Nat) (planData : GPlan) :
    ((buildTasks nowMs planData).filter (fun t => t.isGIA)).length ≤ 1 ∧
    (∀ t ∈ buildTasks nowMs planData, t.isGIA = true →
      (buildTasks nowMs planData).head? = some t) := by
  have hshape : buildTasks nowMs planData =
      giaPart nowMs planData.gia ++
        (otherPart nowMs planData.otherTasks ++
          quotePart nowMs planData.motivationalQuote) := by
    simp only [buildTasks, List.append_assoc]
  rw [hshape]
  refine gia_head_shape _ _ (giaPart_shape nowMs planData.gia) ?_
  intro t ht
  rcases List.mem_append.1 ht with h | h
  · exact otherPart_not_gia nowMs planData.otherTasks t h
  · exact quotePart_not_gia nowMs planData.motivationalQuote t h

/-- `handleAPIError` only ever produces one of the four fixed user-facing
    messages. -/
theorem handleAPIError_mem (e : JSError) :
    handleAPIError e ∈ [quotaMsg, busyMsg, authMsg, genericMsg] := by
  unfold handleAPIError
  split
  · simp
  · split
    · simp
    · split
      · simp
      · simp

/-- Any string built by appending "_quote" — the quote task's id — ends with
    the "quote" suffix. -/
theorem strEndsWith_quote (a : String) : strEndsWith (a ++ "_quote") "quote" = true := by
  unfold strEndsWith
  rw [String.data_append, List.reverse_append]
  have h1 : "quote".data.reverse = ['e', 't', 'o', 'u', 'q'] := rfl
  have h2 : "_quote".data.reverse = ['e', 't', 'o', 'u', 'q', '_'] := rfl
  rw [h1, h2]
  simp [isPrefixOfChars]

/- ===== Claim theorems ===== -/

/-- C1: an operation that fails with a 429/quota-classified error on every
    attempt is attempted exactly `maxRetries = 3` times (the source logs each
    attempt as `retry attempt/maxRetries`), with strictly increasing waits of
    `baseDelay * 2 ^ attempt` (6000ms base) between attempts, after which the
    run fails with the distinct quota-exhausted error — not the underlying
    error and not a success. -/
theorem quota_failure_retries_then_distinct_error (α : Type)
    (behavior : Nat → Except JSError α) (e1 e2 e3 : JSError)
    (hb1 : behavior 1 = .error e1) (hq1 : (quotaOuter e1 && quotaInner e1) = true)
    (hb2 : behavior 2 = .error e2) (hq2 : (quotaOuter e2 && quotaInner e2) = true)
    (hb3 : behavior 3 = .error e3) (hq3 : (quotaOuter e3 && quotaInner e3) = true) :
    (retryWithBackoff behavior 3 6000).attempts = [1, 2, 3] ∧
    (retryWithBackoff behavior 3 6000).delays =
      [6000 * 2 ^ 1, 6000 * 2 ^ 2] ∧
    List.Chain' (fun a b => a < b) (retryWithBackoff behavior 3 6000).delays ∧
    (retryWithBackoff behavior 3 6000).result = .error (some quotaExhaustedError) := by
  have hval : retryWithBackoff behavior 3 6000 =
      ⟨.error (some quotaExhaustedError), [6000 * 2 ^ 1, 6000 * 2 ^ 2], [1, 2, 3]⟩ := by
    simp [retryWithBackoff, retryGo, hb1, hb2, hb3, hq1, hq2, hq3]
  rw [hval]
  refine ⟨rfl, rfl, ?_, rfl⟩
  simp only [List.chain'_cons, List.chain'_singleton, and_true]
  norm_num

/-- C1 witness: a concrete always-quota-failing operation. -/
theorem quota_failure_retries_then_distinct_error_witness :
    ((fun _ => (.error ⟨"429 quota"⟩ : Except JSError Nat)) 1 =
      .error ⟨"429 quota"⟩) ∧
    ((quotaOuter ⟨"429 quota"⟩ && quotaInner ⟨"429 quota"⟩) = true) ∧
    ((retryWithBackoff (fun _ => (.error ⟨"429 quota"⟩ : Except JSError Nat)) 3 6000).attempts
        = [1, 2, 3] ∧
      (retryWithBackoff (fun _ => (.error ⟨"429 quota"⟩ : Except JSError Nat)) 3 6000).delays
        = [6000 * 2 ^ 1, 6000 * 2 ^ 2] ∧
      List.Chain' (fun a b => a < b)
        (retryWithBackoff (fun _ => (.error ⟨"429 quota"⟩ : Except JSError Nat)) 3 6000).delays ∧
      (retryWithBackoff (fun _ => (.error ⟨"429 quota"⟩ : Except JSError Nat)) 3 6000).result
        = .error (some quotaExhaustedError)) :=
  ⟨rfl, by decide,
    quota_failure_retries_then_distinct_error Nat _ ⟨"429 quota"⟩ ⟨"429 quota"⟩ ⟨"429 quota"⟩
      rfl (by decide) rfl (by decide) rfl (by decide)⟩

/-- C2: the drain loop executes the wrapped operations strictly in submission
    order (the dispatch-order ids equal the queue's ids), one at a time, each
    run to completion before the next starts (the trace is a chain of adjacent
    start/settle pairs), and every queued request — `reqs` may mix resolving
    and rejecting ones arbitrarily — contributes exactly its own pair of
    events, so one call's failure never prevents later calls from running. -/
theorem queue_fifo_sequential (st : GovState) (reqs : List Req) :
    startIds (processQueue st reqs) = reqs.map Req.id ∧
    SeqTrace (processQueue st reqs) ∧
    (processQueue st reqs).length = 2 * reqs.length := by
  induction reqs generalizing st with
  | nil => exact ⟨rfl, SeqTrace.nil, rfl⟩
  | cons r rest ih =>
    obtain ⟨h1, h2, h3⟩ := ih (runGoverned st r).1
    refine ⟨?_, ?_, ?_⟩
    · have hs : startIds (processQueue st (r :: rest)) =
        r.id :: startIds (processQueue (runGoverned st r).1 rest) := rfl
      rw [hs, h1, List.map_cons]
    · exact SeqTrace.pair _ _ _ _ h2
    · have hl : (processQueue st (r :: rest)).length =
        (processQueue (runGoverned st r).1 rest).length + 2 := rfl
      rw [hl, h3, List.length_cons]
      ring

/-- C3: starting from the module's initial state (`lastRequestTime = 0`,
    first submission at an arbitrary wall-clock time `t0`), any two
    consecutive dispatch start times are at least `MIN_REQUEST_INTERVAL`
    (5000 ms) apart — for arbitrary operation durations, including zero. -/
theorem consecutive_dispatch_spacing (t0 : Nat) (reqs : List Req) :
    List.Chain' (fun a b => a + MIN_REQUEST_INTERVAL ≤ b)
      (dispatchTimes (processQueue ⟨t0, 0⟩ reqs)) :=
  (processQueue_spacing reqs ⟨t0, 0⟩ (Nat.zero_le t0)).1

/-- C4: an operation that fails once with a 503/overloaded-classified
    (transient, non-quota) error and then succeeds returns the success after
    exactly one retry (attempts `[1, 2]`), having waited
    `baseDelay * 1.5 ^ (attempt - 1)` after the failing attempt; and an
    operation that fails transiently on every attempt waits that amount after
    each non-final attempt and, on exhaustion, propagates the last underlying
    error itself. -/
theorem transient_failure_retry_policy (α : Type) (behA behB : Nat → Except JSError α)
    (e f1 f2 f3 : JSError) (v : α)
    (ha1 : behA 1 = .error e) (haq : (quotaOuter e && quotaInner e) = false)
    (har : retryable e = true) (ha2 : behA 2 = .ok v)
    (hb1 : behB 1 = .error f1) (hq1 : (quotaOuter f1 && quotaInner f1) = false)
    (hr1 : retryable f1 = true)
    (hb2 : behB 2 = .error f2) (hq2 : (quotaOuter f2 && quotaInner f2) = false)
    (hr2 : retryable f2 = true)
    (hb3 : behB 3 = .error f3) (hq3 : (quotaOuter f3 && quotaInner f3) = false)
    (hr3 : retryable f3 = true) :
    ((retryWithBackoff behA 3 6000).result = .ok v ∧
      (retryWithBackoff behA 3 6000).attempts = [1, 2] ∧
      (retryWithBackoff behA 3 6000).delays = [6000 * (3 / 2 : ℚ) ^ (1 - 1)]) ∧
    ((retryWithBackoff behB 3 6000).result = .error (some f3) ∧
      (retryWithBackoff behB 3 6000).delays =
        [6000 * (3 / 2 : ℚ) ^ (1 - 1), 6000 * (3 / 2 : ℚ) ^ (2 - 1)]) := by
  constructor
  · have hval : retryWithBackoff behA 3 6000 =
        ⟨.ok v, [6000 * (3 / 2 : ℚ) ^ (1 - 1)], [1, 2]⟩ := by
      simp [retryWithBackoff, retryGo, ha1, ha2, haq, har]
    rw [hval]
    exact ⟨rfl, rfl, rfl⟩
  · have hval : retryWithBackoff behB 3 6000 =
        ⟨.error (some f3),
          [6000 * (3 / 2 : ℚ) ^ (1 - 1), 6000 * (3 / 2 : ℚ) ^ (2 - 1)], [1, 2, 3]⟩ := by
      simp [retryWithBackoff, retryGo, hb1, hb2, hb3, hq1, hq2, hq3, hr1, hr2, hr3]
    rw [hval]
    exact ⟨rfl, rfl⟩

/-- C4 witness: fail once with "503" then succeed; fail with "overloaded"
    on every attempt. -/
theorem transient_failure_retry_policy_witness :
    ((fun a => if a = 1 then (.error ⟨"503"⟩ : Except JSError Nat) else .ok 7) 1 =
        .error ⟨"503"⟩) ∧
    ((quotaOuter ⟨"503"⟩ && quotaInner ⟨"503"⟩) = false) ∧
    (retryable ⟨"503"⟩ = true) ∧
    ((fun a => if a = 1 then (.error ⟨"503"⟩ : Except JSError Nat) else .ok 7) 2 = .ok 7) ∧
    ((fun _ => (.error ⟨"overloaded"⟩ : Except JSError Nat)) 1 = .error ⟨"overloaded"⟩) ∧
    ((quotaOuter ⟨"overloaded"⟩ && quotaInner ⟨"overloaded"⟩) = false) ∧
    (retryable ⟨"overloaded"⟩ = true) ∧
    (((retryWithBackoff (fun a => if a = 1 then (.error ⟨"503"⟩ : Except JSError Nat) else .ok 7)
          3 6000).result = .ok 7 ∧
      (retryWithBackoff (fun a => if a = 1 then (.error ⟨"503"⟩ : Except JSError Nat) else .ok 7)
          3 6000).attempts = [1, 2] ∧
      (retryWithBackoff (fun a => if a = 1 then (.error ⟨"503"⟩ : Except JSError Nat) else .ok 7)
          3 6000).delays = [6000 * (3 / 2 : ℚ) ^ (1 - 1)]) ∧
    ((retryWithBackoff (fun _ => (.error ⟨"overloaded"⟩ : Except JSError Nat)) 3 6000).result
        = .error (some ⟨"overloaded"⟩) ∧
      (retryWithBackoff (fun _ => (.error ⟨"overloaded"⟩ : Except JSError Nat)) 3 6000).delays
        = [6000 * (3 / 2 : ℚ) ^ (1 - 1), 6000 * (3 / 2 : ℚ) ^ (2 - 1)])) :=
  ⟨rfl, by decide, by decide, rfl, rfl, by decide, by decide,
    transient_failure_retry_policy Nat _ _ ⟨"503"⟩ ⟨"overloaded"⟩ ⟨"overloaded"⟩ ⟨"overloaded"⟩ 7
      rfl (by decide) (by decide) rfl rfl (by decide) (by decide) rfl (by decide) (by decide)
      rfl (by decide) (by decide)⟩

/-- C5 counterexample: an upstream failure whose message is exactly
    "RESOURCE_EXHAUSTED" is quota-classified by the claim's marker set, and it
    is the very error the reflection path catches, yet the resolved string is
    the bare fallback with no quota-warning suffix (the code's suffix test
    only looks for "quota" and "429") — refuting the claimed "if and only
    if". -/
theorem reflection_quota_suffix_iff_counterexample :
    specQuotaClassified ⟨"RESOURCE_EXHAUSTED"⟩ = true ∧
    (retryWithBackoff (reflectionFn (fun _ => .error ⟨"RESOURCE_EXHAUSTED"⟩)) 3 6000).result
      = .error (some ⟨"RESOURCE_EXHAUSTED"⟩) ∧
    getReflectionResponse (fun _ => .error ⟨"RESOURCE_EXHAUSTED"⟩) ⟨0, by decide⟩
      = .ok (fallbackResponses.get ⟨0, by decide⟩) ∧
    strIncludes (fallbackResponses.get ⟨0, by decide⟩) "quota limit reached" = false :=
  ⟨by decide, rfl, rfl, by decide⟩

/-- C5 (amended): whenever the governed reflection call fails,
    `getReflectionResponse` still resolves — to one of the five fixed
    fallback strings, with the quota-warning suffix appended precisely when
    the caught error's message contains "quota" or "429" (not the claim's
    full marker set). -/
theorem reflection_always_resolves_fallback
    (upstream : Nat → Except JSError (Option String))
    (pick : Fin fallbackResponses.length) :
    (∃ s, getReflectionResponse upstream pick = .ok s) ∧
    fallbackResponses.length = 5 ∧
    fallbackResponses.get pick ∈ fallbackResponses ∧
    (∀ e, (retryWithBackoff (reflectionFn upstream) 3 6000).result = .error (some e) →
      ((strIncludes e.message "quota" || strIncludes e.message "429") = true →
        getReflectionResponse upstream pick =
          .ok (fallbackResponses.get pick ++ quotaNoteSuffix)) ∧
      ((strIncludes e.message "quota" || strIncludes e.message "429") = false →
        getReflectionResponse upstream pick = .ok (fallbackResponses.get pick))) := by
  refine ⟨?_, rfl, List.get_mem fallbackResponses pick.1 pick.2, ?_⟩
  · simp only [getReflectionResponse]
    split
    · exact ⟨_, rfl⟩
    · next heq =>
        exact absurd (retryGo_result_ne_error_none (reflectionFn upstream) 3 6000 3 1 none heq).1
          (by simp)
    · split
      · exact ⟨_, rfl⟩
      · exact ⟨_, rfl⟩
  · intro e he
    constructor
    · intro hqe
      simp only [getReflectionResponse]
      rw [he]
      simp [hqe]
    · intro hqe
      simp only [getReflectionResponse]
      rw [he]
      simp [hqe]

/-- C5 (amended) witness: a persistent "quota" failure surfaces the distinct
    quota-exhausted error, whose message contains "quota", so the resolved
    string is the first fallback with the quota note appended. -/
theorem reflection_always_resolves_fallback_witness :
    ((retryWithBackoff (reflectionFn (fun _ => .error ⟨"quota"⟩)) 3 6000).result
      = .error (some quotaExhaustedError)) ∧
    (strIncludes quotaExhaustedError.message "quota" ||
      strIncludes quotaExhaustedError.message "429") = true ∧
    getReflectionResponse (fun _ => .error ⟨"quota"⟩) ⟨0, by decide⟩
      = .ok (fallbackResponses.get ⟨0, by decide⟩ ++ quotaNoteSuffix) :=
  ⟨rfl, by decide,
    ((reflection_always_resolves_fallback (fun _ => .error ⟨"quota"⟩) ⟨0, by decide⟩).2.2.2
      quotaExhaustedError rfl).1 (by decide)⟩

/-- C6: when the upstream text parses to a plan with a (non-empty) GIA task,
    supporting tasks and a motivational quote, `getDailyPlan` returns the GIA
    task first with `isGIA = true`, then each supporting task in array order
    with `isGIA = false`, and last a synthetic task carrying the quote text,
    `isGIA = false`, whose identifier ends in the "quote" suffix. -/
theorem daily_plan_ordered_mapping
    (pr : UserProfile) (gl : Goal) (parse : String → Option GPlan)
    (upstream : Nat → Except JSError (Option String)) (nowMs : Nat)
    (txt gt q : String) (reason : Option String) (others : List String)
    (htitle : gl.title ≠ "") (hid : pr.identity ≠ "")
    (hup : upstream 1 = .ok (some txt)) (htxt : txt ≠ "")
    (hparse : parse txt.trim =
      some ⟨some ⟨some gt, reason⟩, some (others.map (fun s => ⟨some s⟩)), some q⟩)
    (hgt : gt ≠ "") (hothers : ∀ s ∈ others, s ≠ "") (hq : q ≠ "") :
    (getDailyPlan (some pr) (some gl) parse upstream nowMs).result =
      .ok (⟨"task_" ++ toString nowMs ++ "_gia", gt, false, true⟩ ::
        ((others.enumFrom 0).map
          (fun p => ⟨"task_" ++ toString nowMs ++ "_" ++ toString p.1, p.2, false, false⟩) ++
          [⟨"task_" ++ toString nowMs ++ "_quote", q, false, false⟩])) ∧
    strEndsWith ("task_" ++ toString nowMs ++ "_quote") "quote" = true := by
  refine ⟨?_, strEndsWith_quote _⟩
  have htasks : buildTasks nowMs
      ⟨some ⟨some gt, reason⟩, some (others.map (fun s => ⟨some s⟩)), some q⟩ =
      ⟨"task_" ++ toString nowMs ++ "_gia", gt, false, true⟩ ::
        ((others.enumFrom 0).map
          (fun p => ⟨"task_" ++ toString nowMs ++ "_" ++ toString p.1, p.2, false, false⟩) ++
          [⟨"task_" ++ toString nowMs ++ "_quote", q, false, false⟩]) := by
    simp only [buildTasks, giaPart, otherPart, quotePart, if_neg hgt, if_neg hq]
    rw [otherLoop_map nowMs others hothers 0]
    simp
  have hfn : planFn parse upstream nowMs 1 =
      .ok (⟨"task_" ++ toString nowMs ++ "_gia", gt, false, true⟩ ::
        ((others.enumFrom 0).map
          (fun p => ⟨"task_" ++ toString nowMs ++ "_" ++ toString p.1, p.2, false, false⟩) ++
          [⟨"task_" ++ toString nowMs ++ "_quote", q, false, false⟩])) := by
    simp only [planFn, hup, if_neg htxt, hparse, htasks]
    simp
  have hres : (retryWithBackoff (planFn parse upstream nowMs) 3 6000).result =
      .ok (⟨"task_" ++ toString nowMs ++ "_gia", gt, false, true⟩ ::
        ((others.enumFrom 0).map
          (fun p => ⟨"task_" ++ toString nowMs ++ "_" ++ toString p.1, p.2, false, false⟩) ++
          [⟨"task_" ++ toString nowMs ++ "_quote", q, false, false⟩])) := by
    simp [retryWithBackoff, retryGo, hfn]
  simp only [getDailyPlan, goalFalsy, profileFalsy]
  rw [if_neg (by simp [htitle]), if_neg (by simp [hid])]
  rw [hres]

/-- C6 witness: the spec's worked example. -/
theorem daily_plan_ordered_mapping_witness :
    ((fun _ => (.ok (some "x") : Except JSError (Option String))) 1 = .ok (some "x")) ∧
    ((fun _ => some (⟨some ⟨some "Run 5k", some "builds momentum"⟩,
        some [⟨some "Drink water"⟩], some "Keep going"⟩ : GPlan)) (("x" : String).trim) =
      some ⟨some ⟨some "Run 5k", some "builds momentum"⟩,
        some (["Drink water"].map (fun s => ⟨some s⟩)), some "Keep going"⟩) ∧
    ((getDailyPlan (some ⟨"a runner", "ctx"⟩) (some ⟨"g1", "Get fit"⟩)
        (fun _ => some ⟨some ⟨some "Run 5k", some "builds momentum"⟩,
          some [⟨some "Drink water"⟩], some "Keep going"⟩)
        (fun _ => .ok (some "x")) 0).result =
      .ok [⟨"task_0_gia", "Run 5k", false, true⟩,
           ⟨"task_0_0", "Drink water", false, false⟩,
           ⟨"task_0_quote", "Keep going", false, false⟩]) ∧
    strEndsWith "task_0_quote" "quote" = true := by
  have h := daily_plan_ordered_mapping ⟨"a runner", "ctx"⟩ ⟨"g1", "Get fit"⟩
    (fun _ => some ⟨some ⟨some "Run 5k", some "builds momentum"⟩,
      some [⟨some "Drink water"⟩], some "Keep going"⟩)
    (fun _ => .ok (some "x")) 0 "x" "Run 5k" "Keep going" (some "builds momentum")
    ["Drink water"] (by decide) (by decide) rfl (by decide) rfl (by decide)
    (by decide) (by decide)
  exact ⟨rfl, rfl, h.1, h.2⟩

/-- C7: with valid inputs, `getDailyPlan` fails when the upstream response is
    empty (absent or empty text), when the text does not parse as JSON, and
    when the parsed plan yields zero tasks — in each case with the generic
    fixed message — and every failure it ever surfaces carries one of the
    four fixed user-facing messages, never raw upstream error text. -/
theorem daily_plan_failure_categories
    (pr : UserProfile) (gl : Goal) (parse : String → Option GPlan)
    (upstream : Nat → Except JSError (Option String)) (nowMs : Nat)
    (htitle : gl.title ≠ "") (hid : pr.identity ≠ "") :
    (upstream 1 = .ok none ∨ upstream 1 = .ok (some "") →
      (getDailyPlan (some pr) (some gl) parse upstream nowMs).result =
        .error ⟨genericMsg⟩) ∧
    (∀ txt, upstream 1 = .ok (some txt) → txt ≠ "" → parse txt.trim = none →
      (getDailyPlan (some pr) (some gl) parse upstream nowMs).result =
        .error ⟨genericMsg⟩) ∧
    (∀ txt planData, upstream 1 = .ok (some txt) → txt ≠ "" →
      parse txt.trim = some planData → buildTasks nowMs planData = [] →
      (getDailyPlan (some pr) (some gl) parse upstream nowMs).result =
        .error ⟨genericMsg⟩) ∧
    (∀ m, (getDailyPlan (some pr) (some gl) parse upstream nowMs).result = .error m →
      m.message ∈ [quotaMsg, busyMsg, authMsg, genericMsg]) := by
  have hkey : ∀ e : JSError, planFn parse upstream nowMs 1 = .error e →
      (quotaOuter e && quotaInner e) = false → retryable e = false →
      (retryWithBackoff (planFn parse upstream nowMs) 3 6000).result = .error (some e) := by
    intro e hfn hq hr
    simp [retryWithBackoff, retryGo, hfn, hq, hr]
  refine ⟨?_, ?_, ?_, ?_⟩
  · rintro (hup | hup)
    · have hres := hkey emptyResponseError (by simp [planFn, hup]) (by decide) (by decide)
      simp only [getDailyPlan, goalFalsy, profileFalsy]
      rw [if_neg (by simp [htitle]), if_neg (by simp [hid]), hres]
      rfl
    · have hres := hkey emptyResponseError (by simp [planFn, hup]) (by decide) (by decide)
      simp only [getDailyPlan, goalFalsy, profileFalsy]
      rw [if_neg (by simp [htitle]), if_neg (by simp [hid]), hres]
      rfl
  · intro txt hup htxt hparse
    have hres := hkey invalidFormatError
      (by simp only [planFn, hup, if_neg htxt, hparse]) (by decide) (by decide)
    simp only [getDailyPlan, goalFalsy, profileFalsy]
    rw [if_neg (by simp [htitle]), if_neg (by simp [hid]), hres]
    rfl
  · intro txt planData hup htxt hparse hzero
    have hres := hkey noTasksError
      (by simp only [planFn, hup, if_neg htxt, hparse, hzero]; simp) (by decide) (by decide)
    simp only [getDailyPlan, goalFalsy, profileFalsy]
    rw [if_neg (by simp [htitle]), if_neg (by simp [hid]), hres]
    rfl
  · intro m hm
    simp only [getDailyPlan, goalFalsy, profileFalsy] at hm
    rw [if_neg (by simp [htitle]), if_neg (by simp [hid])] at hm
    rcases hres : (retryWithBackoff (planFn parse upstream nowMs) 3 6000).result
      with oe | ts
    · rcases oe with _ | e
      · exact absurd
          (retryGo_result_ne_error_none (planFn parse upstream nowMs) 3 6000 3 1 none hres).1
          (by simp)
      · rw [hres] at hm
        have : (⟨handleAPIError e⟩ : JSError) = m := by
          exact Except.error.inj hm
        rw [← this]
        exact handleAPIError_mem e
    · rw [hres] at hm
      simp at hm

/-- C7 witness: a concrete run where the upstream response is absent. -/
theorem daily_plan_failure_categories_witness :
    (("t" : String) ≠ "") ∧ (("i" : String) ≠ "") ∧
    ((fun _ => (.ok none : Except JSError (Option String))) 1 = .ok none) ∧
    ((getDailyPlan (some ⟨"i", "c"⟩) (some ⟨"g", "t"⟩) (fun _ => none)
        (fun _ => .ok none) 0).result = .error ⟨genericMsg⟩) ∧
    (genericMsg ∈ [quotaMsg, busyMsg, authMsg, genericMsg]) := by
  have h := daily_plan_failure_categories ⟨"i", "c"⟩ ⟨"g", "t"⟩ (fun _ => none)
    (fun _ => .ok none) 0 (by decide) (by decide)
  exact ⟨by decide, by decide, rfl, h.1 (Or.inl rfl),
    h.2.2.2 ⟨genericMsg⟩ (h.1 (Or.inl rfl))⟩

/-- C8: a falsy goal (absent, or empty title) makes `getDailyPlan` fail at
    once with the goal validation error, and — with a valid goal — a falsy
    profile (absent, or empty identity) with the profile validation error;
    in both cases nothing is ever enqueued in the governor (`attempts = []`),
    so there is no retry and no upstream call. -/
theorem validation_short_circuits
    (profile : Option UserProfile) (goal : Option Goal)
    (parse : String → Option GPlan) (upstream : Nat → Except JSError (Option String))
    (nowMs : Nat) :
    (goalFalsy goal = true →
      getDailyPlan profile goal parse upstream nowMs = ⟨.error goalRequiredError, []⟩) ∧
    (goalFalsy goal = false → profileFalsy profile = true →
      getDailyPlan profile goal parse upstream nowMs = ⟨.error profileRequiredError, []⟩) := by
  constructor
  · intro h
    simp [getDailyPlan, h]
  · intro hg hp
    simp [getDailyPlan, hg, hp]

/-- C8 witness: a missing goal, and an empty profile identity. -/
theorem validation_short_circuits_witness :
    (goalFalsy none = true) ∧
    (getDailyPlan (some ⟨"i", "c"⟩) none (fun _ => none) (fun _ => .error ⟨"x"⟩) 0 =
      ⟨.error goalRequiredError, []⟩) ∧
    (goalFalsy (some ⟨"g", "t"⟩) = false) ∧
    (profileFalsy (some ⟨"", "c"⟩) = true) ∧
    (getDailyPlan (some ⟨"", "c"⟩) (some ⟨"g", "t"⟩) (fun _ => none)
        (fun _ => .error ⟨"x"⟩) 0 = ⟨.error profileRequiredError, []⟩) :=
  ⟨by decide, (validation_short_circuits _ _ _ _ _).1 (by decide), by decide, by decide,
    (validation_short_circuits _ _ _ _ _).2 (by decide) (by decide)⟩

/-- C9: whenever `getDailyPlan` succeeds, the returned list has at most one
    GIA-flagged task, and any GIA-flagged task is the first element. -/
theorem unique_gia_at_head
    (profile : Option UserProfile) (goal : Option Goal)
    (parse : String → Option GPlan) (upstream : Nat → Except JSError (Option String))
    (nowMs : Nat) (ts : List Task)
    (h : (getDailyPlan profile goal parse upstream nowMs).result = .ok ts) :
    (ts.filter (fun t => t.isGIA)).length ≤ 1 ∧
    (∀ t ∈ ts, t.isGIA = true → ts.head? = some t) := by
  by_cases hg : goalFalsy goal = true
  · simp [getDailyPlan, hg] at h
  · by_cases hp : profileFalsy profile = true
    · simp [getDailyPlan, hg, hp] at h
    · simp only [getDailyPlan] at h
      rw [if_neg hg, if_neg hp] at h
      rcases hres : (retryWithBackoff (planFn parse upstream nowMs) 3 6000).result
        with oe | ts'
      · rcases oe with _ | e <;> rw [hres] at h <;> simp at h
      · rw [hres] at h
        have hts' : ts' = ts := by simpa using h
        rw [← hts']
        obtain ⟨a, ha⟩ :=
          retryGo_ok_origin (planFn parse upstream nowMs) 3 6000 3 1 none ts' hres
        rcases hu : upstream a with e | otxt
        · simp [planFn, hu] at ha
        · rcases otxt with _ | txt
          · simp [planFn, hu] at ha
          · by_cases htxt : txt = ""
            · simp [planFn, hu, htxt] at ha
            · rcases hp2 : parse txt.trim with _ | planData
              · simp [planFn, hu, htxt, hp2] at ha
              · simp only [planFn, hu, if_neg htxt, hp2] at ha
                by_cases hlen : (buildTasks nowMs planData).length = 0
                · rw [if_pos hlen] at ha
                  simp at ha
                · rw [if_neg hlen] at ha
                  have hbt : buildTasks nowMs planData = ts' := by simpa using ha
                  have hb := buildTasks_gia nowMs planData
                  rw [hbt] at hb
                  exact hb

/-- C9 witness: a successful run with a GIA task and a quote task. -/
theorem unique_gia_at_head_witness :
    ((getDailyPlan (some ⟨"i", "c"⟩) (some ⟨"g", "t"⟩)
        (fun _ => some ⟨some ⟨some "Run", some "r"⟩, some [], some "Q"⟩)
        (fun _ => .ok (some "x")) 0).result =
      .ok [⟨"task_0_gia", "Run", false, true⟩, ⟨"task_0_quote", "Q", false, false⟩]) ∧
    (([⟨"task_0_gia", "Run", false, true⟩,
        (⟨"task_0_quote", "Q", false, false⟩ : Task)].filter (fun t => t.isGIA)).length ≤ 1 ∧
      (∀ t ∈ [⟨"task_0_gia", "Run", false, true⟩,
          (⟨"task_0_quote", "Q", false, false⟩ : Task)], t.isGIA = true →
        [⟨"task_0_gia", "Run", false, true⟩,
          (⟨"task_0_quote", "Q", false, false⟩ : Task)].head? = some t)) :=
  ⟨rfl, unique_gia_at_head (some ⟨"i", "c"⟩) (some ⟨"g", "t"⟩)
    (fun _ => some ⟨some ⟨some "Run", some "r"⟩, some [], some "Q"⟩)
    (fun _ => .ok (some "x")) 0 _ rfl⟩

/-- C10: `getUserData` always resolves with both fields populated, returning
    the fixed default profile whenever the store holds no profile and the
    fixed default goal whenever it holds no goal — including when the whole
    `users/{userId}` subtree is absent. -/
theorem user_data_defaults (data : Option StoredData) :
    (data.bind StoredData.profile = none →
      (getUserData data).profile = defaultProfileData) ∧
    (data.bind StoredData.goal = none →
      (getUserData data).goal = defaultGoalData) := by
  rcases data with _ | ⟨p, g⟩
  · exact ⟨fun _ => rfl, fun _ => rfl⟩
  · rcases p with _ | pv <;> rcases g with _ | gv
    · exact ⟨fun _ => rfl, fun _ => rfl⟩
    · exact ⟨fun _ => rfl, fun h => by simp at h⟩
    · exact ⟨fun h => by simp at h, fun _ => rfl⟩
    · exact ⟨fun h => by simp at h, fun h => by simp at h⟩

/-- C10 witness: a user with no stored data at all gets both defaults. -/
theorem user_data_defaults_witness :
    ((none : Option StoredData).bind StoredData.profile = none) ∧
    (getUserData none).profile = defaultProfileData ∧
    (getUserData none).goal = defaultGoalData :=
  ⟨rfl, (user_data_defaults none).1 rfl, (user_data_defaults none).2 rfl⟩

end NR
